import Mathlib

/-
Shallow embedding of the node-mojo CRUD client (src/src/client.js and the
Members resource client in src/unnamed/part_000).

Conventions of the embedding:
- A JavaScript value that is either a string or undefined/null is an
  Option String (none = undefined/null).  JS truthiness of such a value is
  the predicate truthy below; the JS expression a || b is jsOr a b.
- util.format %s renders undefined as the string "undefined" (showU below).
- lodash _.defaults fills only fields that are undefined (fillUndefined).
- Response bodies are records carrying the fields the client reads
  (error_description, error, access_token) plus an opaque rest, standing for
  the parsed JSON body which is otherwise passed through untouched.
- Each method is a pure function from the client, the method arguments and
  the transport result (the (err, response, body) triple of the request
  callback) to the request it issues and the settled outcome of the promise.
  The log calls of the source write to an external sink and carry no data
  flow, so they are not modelled.
- jwt_decode is an external library; logout takes its result on the given
  token as an oracle argument (Except String Session).
- In-place mutation of `this` and of argument objects is modelled by
  returning the updated records; object identity for the bearer claim is
  modelled by a small allocation heap (Heap below).
-/

namespace NodeMojo

/-- JS truthiness of a string-or-undefined value: undefined, null and the
empty string are falsy, every other string is truthy. -/
def truthy : Option String → Bool
  | none => false
  | some s => s != ""

/-- The JS expression a || b on string-or-undefined values. -/
def jsOr (a b : Option String) : Option String :=
  if truthy a then a else b

/-- The JS expression a || d where d is a string literal default
(e.g. options.version || 'v1'). -/
def jsOrS (a : Option String) (d : String) : String :=
  match a with
  | some s => if s = "" then d else s
  | none => d

/-- util.format %s of a string-or-undefined value: undefined prints as
the string "undefined". -/
def showU : Option String → String
  | some s => s
  | none => "undefined"

/-- One field of lodash _.defaults(dst, src): the source value is taken only
when the destination field is undefined. -/
def fillUndefined : Option String → Option String → Option String
  | none, d => d
  | some s, _ => some s

/-- The constructor argument of Client (an options bag; absent fields are
undefined). -/
structure ClientOptions where
  url : Option String := none
  version : Option String := none
  client_id : Option String := none
  client_secret : Option String := none
  token : Option String := none
deriving DecidableEq

/-- The state of a Client instance: the five fields assigned by the
constructor in src/src/client.js lines 43-47. -/
structure Client where
  url : Option String
  version : String
  client_id : Option String
  client_secret : Option String
  token : Option String
deriving DecidableEq

/-- Client constructor (src/src/client.js lines 38-48):
this.url = options.url; this.version = options.version || 'v1';
this.client_id = options.client_id; this.client_secret = options.client_secret;
this.token = options.token. -/
def Client.ofOptions (o : ClientOptions) : Client :=
  { url := o.url
    version := jsOrS o.version "v1"
    client_id := o.client_id
    client_secret := o.client_secret
    token := o.token }

/-- A Client used as the options bag of the constructor, as done by
bearer() (new Client(this)) and the members getter (new Members(this)). -/
def Client.asOptions (c : Client) : ClientOptions :=
  { url := c.url
    version := some c.version
    client_id := c.client_id
    client_secret := c.client_secret
    token := c.token }

/-- An opaque JSON document (create/update bodies); the client never
inspects it. -/
abbrev Doc := List (String × String)

/-- An opaque query-string options object, passed through as qs. -/
abbrev Query := List (String × String)

/-- A parsed JSON response body: the fields the client reads, plus the rest
of the body, which is opaque and passed through unchanged. -/
structure Body where
  error_description : Option String := none
  error : Option String := none
  access_token : Option String := none
  rest : List (String × String) := []
deriving DecidableEq

/-- The transport result handed to the request callback: either a truthy
transport error, or a response with a status code and parsed body. -/
inductive HttpResult where
  | err (e : String)
  | ok (statusCode : Nat) (body : Body)
deriving DecidableEq

inductive Method where
  | get | post | put | del
deriving DecidableEq

/-- The auth option of a request: absent, basic (login), or bearer. -/
inductive Auth where
  | noAuth
  | basic (username password : Option String)
  | bearer (token : Option String)
deriving DecidableEq

/-- The form body of the login request. -/
structure Form where
  grant_type : Option String
  username : Option String
  password : Option String
deriving DecidableEq

/-- The outbound HTTP request an operation issues. -/
structure Request where
  method : Method
  url : String
  auth : Auth
  json : Bool
  body : Option Doc := none
  qs : Option Query := none
  form : Option Form := none
deriving DecidableEq

/-- The reason a promise rejects: a transport error, an application error
for a response with status >= 400 (wrapped records whether the source
wraps the message in new Error, as login/logout do, or rejects the raw
value, as the CRUD verbs do), or the exception thrown while decoding the
token in logout. -/
inductive Reject where
  | transport (e : String)
  | app (message : Option String) (wrapped : Bool)
  | decodeErr (e : String)
deriving DecidableEq

/-- The settled outcome of an operation's promise. -/
inductive Outcome where
  | rejected (reason : Reject)
  | resolved (body : Body)
deriving DecidableEq

/-- The application-error message of a rejected outcome, when there is
one. -/
def Outcome.appMessage : Outcome → Option (Option String)
  | .rejected (.app m _) => some m
  | _ => none

/-- The common request-callback branching of the six CRUD verbs
(create/read/update/del/search/count), which is textually identical in each
(e.g. src/src/client.js lines 160-172): a truthy transport error rejects
with it; a status >= 400 rejects with the raw value of
body.error_description || body.error; otherwise the body resolves. -/
def crudHandle (r : HttpResult) : Outcome :=
  match r with
  | .err e => .rejected (.transport e)
  | .ok statusCode body =>
    if 400 ≤ statusCode then
      .rejected (.app (jsOr body.error_description body.error) false)
    else
      .resolved body

/-- Request and outcome of one CRUD call. -/
structure CallResult where
  request : Request
  outcome : Outcome
deriving DecidableEq

/-- create (src/src/client.js lines 149-174): POST {url}/{version}/{model}
with bearer auth and the document as JSON body. -/
def Client.create (c : Client) (model : String) (doc : Doc) (r : HttpResult) : CallResult :=
  { request :=
      { method := .post
        url := showU c.url ++ "/" ++ c.version ++ "/" ++ model
        auth := .bearer c.token
        json := true
        body := some doc }
    outcome := crudHandle r }

/-- read (src/src/client.js lines 176-206): GET {url}/{version}/{model}/{id}
with bearer auth and the options object (possibly undefined) as qs. -/
def Client.read (c : Client) (model id : String) (options : Option Query) (r : HttpResult) : CallResult :=
  { request :=
      { method := .get
        url := showU c.url ++ "/" ++ c.version ++ "/" ++ model ++ "/" ++ id
        auth := .bearer c.token
        json := true
        qs := options }
    outcome := crudHandle r }

/-- update (src/src/client.js lines 208-233): PUT {url}/{version}/{model}/{id}
with bearer auth and the document as JSON body. -/
def Client.update (c : Client) (model id : String) (doc : Doc) (r : HttpResult) : CallResult :=
  { request :=
      { method := .put
        url := showU c.url ++ "/" ++ c.version ++ "/" ++ model ++ "/" ++ id
        auth := .bearer c.token
        json := true
        body := some doc }
    outcome := crudHandle r }

/-- del (src/src/client.js lines 235-259): the source calls request.put,
so the issued method is PUT, at {url}/{version}/{model}/{id} with bearer
auth. -/
def Client.del (c : Client) (model id : String) (r : HttpResult) : CallResult :=
  { request :=
      { method := .put
        url := showU c.url ++ "/" ++ c.version ++ "/" ++ model ++ "/" ++ id
        auth := .bearer c.token
        json := true }
    outcome := crudHandle r }

/-- search (src/src/client.js lines 261-293): options = options || {};
GET {url}/{version}/{model} with bearer auth and options as qs. -/
def Client.search (c : Client) (model : String) (options : Option Query) (r : HttpResult) : CallResult :=
  { request :=
      { method := .get
        url := showU c.url ++ "/" ++ c.version ++ "/" ++ model
        auth := .bearer c.token
        json := true
        qs := some (options.getD []) }
    outcome := crudHandle r }

/-- count (src/src/client.js lines 295-327): options = options || {};
GET {url}/{version}/{model}/count with bearer auth and options as qs. -/
def Client.count (c : Client) (model : String) (options : Option Query) (r : HttpResult) : CallResult :=
  { request :=
      { method := .get
        url := showU c.url ++ "/" ++ c.version ++ "/" ++ model ++ "/count"
        auth := .bearer c.token
        json := true
        qs := some (options.getD []) }
    outcome := crudHandle r }

/-- The creds argument of login (absent fields are undefined). -/
structure Creds where
  client_id : Option String := none
  client_secret : Option String := none
  username : Option String := none
  password : Option String := none
deriving DecidableEq

/-- The options argument of login (absent fields are undefined). -/
structure LoginOptions where
  grant_type : Option String := none
deriving DecidableEq

/-- The argument-normalization phase of login (src/src/client.js lines
64-78), which mutates the caller's creds and options objects in place:
_.defaults(creds, { client_id: this.client_id, client_secret:
this.client_secret }); if (creds.username && creds.password)
options.grant_type = options.grant_type || 'password';
_.defaults(options, { grant_type: 'client_credentials' }). -/
def Client.loginNormalize (c : Client) (creds : Creds) (options : LoginOptions) :
    Creds × LoginOptions :=
  let creds :=
    { creds with
        client_id := fillUndefined creds.client_id c.client_id
        client_secret := fillUndefined creds.client_secret c.client_secret }
  let options :=
    if truthy creds.username && truthy creds.password then
      { options with grant_type := jsOr options.grant_type (some "password") }
    else options
  let options :=
    { options with grant_type := fillUndefined options.grant_type (some "client_credentials") }
  (creds, options)

/-- The result of a login call: the client after the call (this.token is
assigned on success, line 104), the caller's creds and options objects
after the call (login mutates them in place), the issued request and the
settled outcome. -/
structure LoginResult where
  client : Client
  creds : Creds
  options : LoginOptions
  request : Request
  outcome : Outcome
deriving DecidableEq

/-- login (src/src/client.js lines 53-111): POST {url}/session with basic
auth client_id/client_secret and form { grant_type, username || undefined,
password || undefined }; on status >= 400 rejects with
new Error(body.error_description || body.error); on success assigns
this.token = body.access_token and resolves the body. -/
def Client.login (c : Client) (creds0 : Creds) (options0 : LoginOptions) (r : HttpResult) :
    LoginResult :=
  let n := c.loginNormalize creds0 options0
  let creds := n.1
  let options := n.2
  let req : Request :=
    { method := .post
      url := showU c.url ++ "/session"
      auth := .basic creds.client_id creds.client_secret
      json := true
      form := some
        { grant_type := options.grant_type
          username := jsOr creds.username none
          password := jsOr creds.password none } }
  match r with
  | .err e =>
    { client := c, creds := creds, options := options, request := req
      outcome := .rejected (.transport e) }
  | .ok statusCode body =>
    if 400 ≤ statusCode then
      { client := c, creds := creds, options := options, request := req
        outcome := .rejected (.app (jsOr body.error_description body.error) true) }
    else
      { client := { c with token := body.access_token }, creds := creds, options := options
        request := req, outcome := .resolved body }

/-- The owner object of a decoded session token. -/
structure Owner where
  name : Option String
deriving DecidableEq

/-- A decoded session token, as read by logout: only session.owner.name is
accessed. -/
structure Session where
  owner : Option Owner
deriving DecidableEq

/-- The try block of logout (src/src/client.js lines 121-127):
owner = jwt_decode(token).owner.name. A decode exception propagates; when
session.owner is undefined, reading .name throws a TypeError. -/
def decodeOwner (decode : Except String Session) : Except String (Option String) :=
  match decode with
  | .error e => .error e
  | .ok session =>
    match session.owner with
    | none => .error "TypeError: Cannot read property name of undefined"
    | some o => .ok o.name

/-- The result of a logout call: the request it issued, if any (none when
the token failed to decode), and the settled outcome. -/
structure LogoutResult where
  request : Option Request
  outcome : Outcome
deriving DecidableEq

/-- logout (src/src/client.js lines 115-146): if decoding the token (or
reading owner.name) throws, the promise rejects with the thrown error
before any request is issued; otherwise DELETE {url}/session/{token} with
no auth; status >= 400 rejects with new Error(body.error_description ||
body.error); otherwise the body resolves. jwt_decode is external, so its
result on the token is taken as the decode argument. -/
def Client.logout (c : Client) (token : Option String)
    (decode : Except String Session) (r : HttpResult) : LogoutResult :=
  match decodeOwner decode with
  | .error e => { request := none, outcome := .rejected (.decodeErr e) }
  | .ok _owner =>
    let req : Request :=
      { method := .del
        url := showU c.url ++ "/session/" ++ showU token
        auth := .noAuth
        json := true }
    { request := some req
      outcome :=
        match r with
        | .err e => .rejected (.transport e)
        | .ok statusCode body =>
          if 400 ≤ statusCode then
            .rejected (.app (jsOr body.error_description body.error) true)
          else
            .resolved body }

/-- bearer (src/src/client.js lines 330-334): let client = new Client(this);
client.token = token || client.token; return client. -/
def Client.bearer (c : Client) (token : Option String) : Client :=
  let client := Client.ofOptions c.asOptions
  { client with token := jsOr token client.token }

/-- The members getter (src/src/client.js lines 337-340) returns
new Members(this); the Members constructor (src/unnamed/part_000) just
calls super(options), adding no fields, so a Members instance is a Client
built from this as the options bag. -/
def Client.membersClient (c : Client) : Client :=
  Client.ofOptions c.asOptions

/-- The fixed model name of the Members resource client
(src/unnamed/part_000: static model = 'members'). -/
def membersModel : String := "members"

/-- The query argument of Members.find: a bare string or an options object
(possibly undefined). -/
inductive FindQuery where
  | str (s : String)
  | obj (q : Option Query)
deriving DecidableEq

/-- Members.find (src/unnamed/part_000 lines 54-61): a bare string query is
replaced by { filter: query }, then the call delegates to
super.search(Members.model, query). -/
def membersFind (m : Client) (query : FindQuery) (r : HttpResult) : CallResult :=
  let query : Option Query :=
    match query with
    | .str s => some [("filter", s)]
    | .obj q => q
  m.search membersModel query r

/-- One client operation together with its arguments and transport result,
used to state instance-level frame properties uniformly. -/
inductive Op where
  | login (creds : Creds) (options : LoginOptions) (r : HttpResult)
  | logout (token : Option String) (decode : Except String Session) (r : HttpResult)
  | create (model : String) (doc : Doc) (r : HttpResult)
  | read (model id : String) (options : Option Query) (r : HttpResult)
  | update (model id : String) (doc : Doc) (r : HttpResult)
  | del (model id : String) (r : HttpResult)
  | search (model : String) (options : Option Query) (r : HttpResult)
  | count (model : String) (options : Option Query) (r : HttpResult)
  | bearer (token : Option String)

/-- The state of the receiver after an operation completes. Only login
assigns to this (this.token = body.access_token, line 104); every other
method body contains no assignment to this, and bearer assigns fields of
the freshly constructed client, not of the receiver. -/
def Client.step (c : Client) : Op → Client
  | .login creds options r => (c.login creds options r).client
  | .logout _ _ _ => c
  | .create _ _ _ => c
  | .read _ _ _ _ => c
  | .update _ _ _ _ => c
  | .del _ _ _ => c
  | .search _ _ _ => c
  | .count _ _ _ => c
  | .bearer _ => c

/-- A heap of allocated Client objects; a client reference is an index.
Used to state object-identity properties of bearer(). -/
abbrev Heap := List Client

/-- Allocation of a new Client object (new Client(...)). -/
def Heap.alloc (h : Heap) (c : Client) : Heap × Nat :=
  (h ++ [c], h.length)

/-- The assignment ref.token = t on the object at a reference. -/
def Heap.setToken (h : Heap) (i : Nat) (t : Option String) : Heap :=
  match h[i]? with
  | some c => h.set i { c with token := t }
  | none => h

/-- bearer() run on the heap: reads the receiver at reference i, allocates
new Client(this) with its token overridden by token || copied token, and
returns the new reference. -/
def Heap.bearerOp (h : Heap) (i : Nat) (token : Option String) : Heap × Nat :=
  match h[i]? with
  | some c => h.alloc (c.bearer token)
  | none => (h, i)

/-- A second reading of the error-message rule, following the spec words
rather than the source: the message is the error_description field when it
is present (whether or not it is empty), else the error field. Used to
compare against the source rule jsOr error_description error. -/
def specErrorMessage (b : Body) : Option String :=
  match b.error_description with
  | some s => some s
  | none => b.error

/-- A concrete configured client used to instantiate the theorems below. -/
def sampleClient : Client :=
  { url := some "http://api"
    version := "v1"
    client_id := some "cid"
    client_secret := some "sec"
    token := some "tok" }

@[simp] theorem truthy_none : truthy none = false := rfl

@[simp] theorem truthy_some (s : String) : truthy (some s) = (s != "") := rfl

@[simp] theorem fillUndefined_none (d : Option String) : fillUndefined none d = d := rfl

@[simp] theorem fillUndefined_some (s : String) (d : Option String) :
    fillUndefined (some s) d = some s := rfl

/-- The caller's creds object after login is the normalized one, on every
path of the call. -/
theorem login_creds (c : Client) (creds : Creds) (opts : LoginOptions) (r : HttpResult) :
    (c.login creds opts r).creds = (c.loginNormalize creds opts).1 := by
  cases r with
  | err e => rfl
  | ok statusCode body =>
    by_cases h4 : 400 ≤ statusCode <;> simp [Client.login, h4]

/-- The caller's options object after login is the normalized one, on every
path of the call. -/
theorem login_options (c : Client) (creds : Creds) (opts : LoginOptions) (r : HttpResult) :
    (c.login creds opts r).options = (c.loginNormalize creds opts).2 := by
  cases r with
  | err e => rfl
  | ok statusCode body =>
    by_cases h4 : 400 ≤ statusCode <;> simp [Client.login, h4]

/-- The request login issues, independent of the transport result. -/
theorem login_request (c : Client) (creds : Creds) (opts : LoginOptions) (r : HttpResult) :
    (c.login creds opts r).request =
      { method := .post
        url := showU c.url ++ "/session"
        auth := .basic (c.loginNormalize creds opts).1.client_id
                  (c.loginNormalize creds opts).1.client_secret
        json := true
        form := some
          { grant_type := (c.loginNormalize creds opts).2.grant_type
            username := jsOr (c.loginNormalize creds opts).1.username none
            password := jsOr (c.loginNormalize creds opts).1.password none } } := by
  cases r with
  | err e => rfl
  | ok statusCode body =>
    by_cases h4 : 400 ≤ statusCode <;> simp [Client.login, h4]

/-- The grant_type the normalization computes when the caller supplied
none. -/
theorem normalize_grant_type (c : Client) (creds : Creds) (opts : LoginOptions)
    (h : opts.grant_type = none) :
    (c.loginNormalize creds opts).2.grant_type
      = some (if truthy creds.username && truthy creds.password
              then "password" else "client_credentials") := by
  obtain ⟨g⟩ := opts
  have hg : g = none := h
  subst hg
  cases hu : truthy creds.username <;> cases hp : truthy creds.password <;>
    simp [Client.loginNormalize, jsOr, hu, hp]

/-- C2: for every model and id, del issues an HTTP PUT request (not DELETE)
to {url}/{version}/{model}/{id} with bearer authentication. -/
theorem C2_del_issues_put (c : Client) (model id : String) (r : HttpResult) :
    (c.del model id r).request.method = .put ∧
    (c.del model id r).request.url
      = showU c.url ++ "/" ++ c.version ++ "/" ++ model ++ "/" ++ id ∧
    (c.del model id r).request.auth = .bearer c.token :=
  ⟨rfl, rfl, rfl⟩

/-- C6: whenever decoding the token (or reading the decoded session's
owner.name) throws, logout rejects with the thrown decode error and issues
no HTTP request, whatever the transport would have returned. -/
theorem C6_logout_decode_rejects (c : Client) (tok : Option String)
    (decode : Except String Session) (e : String)
    (hd : decodeOwner decode = .error e) (r : HttpResult) :
    c.logout tok decode r = { request := none, outcome := .rejected (.decodeErr e) } := by
  simp [Client.logout, hd]

/-- Witness for C6 at a concrete failing decode. -/
theorem C6_witness :
    (decodeOwner (.error "InvalidTokenError") = .error "InvalidTokenError") ∧
    sampleClient.logout (some "t") (.error "InvalidTokenError") (.ok 200 {})
      = { request := none, outcome := .rejected (.decodeErr "InvalidTokenError") } :=
  ⟨rfl, C6_logout_decode_rejects sampleClient (some "t") (.error "InvalidTokenError")
    "InvalidTokenError" rfl (.ok 200 {})⟩

/-- C9: bearer called with a falsy token (undefined/null/empty string)
returns a client whose token equals the receiver's current token. -/
theorem C9_bearer_falsy_keeps_token (c : Client) (x : Option String)
    (h : truthy x = false) :
    (c.bearer x).token = c.token := by
  simp [Client.bearer, Client.ofOptions, Client.asOptions, jsOr, h]

/-- Witness for C9 with the empty-string token. -/
theorem C9_witness :
    (truthy (some "") = false) ∧ (sampleClient.bearer (some "")).token = some "tok" :=
  ⟨by decide, C9_bearer_falsy_keeps_token sampleClient (some "") (by decide)⟩

/-- C5: on the members resource client obtained from a base client, find
with a string query issues the same request and settles the same way as
search on the base client with { filter: query } and the model fixed to
members; a non-string query is passed to search unchanged. The base client
has a constructor-produced version (nonempty), which the constructor
guarantees. -/
theorem C5_find_delegates (c : Client) (hv : c.version ≠ "") (s : String)
    (q : Option Query) (r : HttpResult) :
    (membersFind c.membersClient (.str s) r
      = c.search "members" (some [("filter", s)]) r) ∧
    (membersFind c.membersClient (.obj q) r = c.search "members" q r) := by
  have hm : c.membersClient = c := by
    obtain ⟨url, version, cid, csec, tok⟩ := c
    have hv2 : version ≠ "" := hv
    simp [Client.membersClient, Client.ofOptions, Client.asOptions, jsOrS, hv2]
  refine ⟨?_, ?_⟩ <;> rw [hm] <;> rfl

/-- Witness for C5 at a concrete client and query. -/
theorem C5_witness :
    (sampleClient.version ≠ "") ∧
    membersFind sampleClient.membersClient (.str "abc") (.ok 200 {})
      = sampleClient.search "members" (some [("filter", "abc")]) (.ok 200 {}) :=
  ⟨by decide, (C5_find_delegates sampleClient (by decide) "abc" none (.ok 200 {})).1⟩

/-- C7: when the caller supplies no explicit grant_type, the login request's
form carries grant_type password when creds hold a truthy username and a
truthy password, else client_credentials (and username/password are sent
only when truthy). -/
theorem C7_grant_type_default (c : Client) (creds : Creds) (opts : LoginOptions)
    (r : HttpResult) (h : opts.grant_type = none) :
    (c.login creds opts r).request.form = some
      { grant_type := some (if truthy creds.username && truthy creds.password
                            then "password" else "client_credentials")
        username := jsOr creds.username none
        password := jsOr creds.password none } := by
  rw [login_request]
  have hn : (c.loginNormalize creds opts).1.username = creds.username ∧
      (c.loginNormalize creds opts).1.password = creds.password := by
    exact ⟨rfl, rfl⟩
  simp [hn.1, hn.2, normalize_grant_type c creds opts h]

/-- Witness for C7 with username and password present. -/
theorem C7_witness :
    (({} : LoginOptions).grant_type = none) ∧
    (sampleClient.login { username := some "u", password := some "p" } {}
        (.ok 200 {})).request.form
      = some { grant_type := some "password", username := some "u", password := some "p" } :=
  ⟨rfl, C7_grant_type_default sampleClient
    { username := some "u", password := some "p" } {} (.ok 200 {}) rfl⟩

/-- C1, counterexample: the claim reads the message as error_description
whenever the field is present, but the source computes
body.error_description || body.error, which skips a present-but-empty
error_description. On the body with error_description present and empty
and error unauthorized, create rejects with unauthorized, not with the
empty string the claim prescribes. -/
theorem C1_counterexample :
    ((sampleClient.create "members" []
        (.ok 401 { error_description := some "", error := some "unauthorized" })).outcome.appMessage
      = some (some "unauthorized")) ∧
    (specErrorMessage { error_description := some "", error := some "unauthorized" }
      = some "") ∧
    ((sampleClient.create "members" []
        (.ok 401 { error_description := some "", error := some "unauthorized" })).outcome.appMessage
      ≠ some (specErrorMessage
          { error_description := some "", error := some "unauthorized" })) := by
  refine ⟨by decide, by decide, by decide⟩

/-- C1 as amended: for every operation and every response with status
>= 400, the call rejects with an application error whose message is
body.error_description when that field is present and non-empty (truthy),
else body.error; login and logout wrap it in new Error, the CRUD verbs
reject the raw value. -/
theorem C1_message_truthy (c : Client) (statusCode : Nat) (body : Body)
    (creds : Creds) (lopts : LoginOptions) (tok : Option String) (own : Owner)
    (model id : String) (doc : Doc) (qopts : Option Query)
    (h : 400 ≤ statusCode) :
    ((c.login creds lopts (.ok statusCode body)).outcome
      = .rejected (.app (jsOr body.error_description body.error) true)) ∧
    ((c.logout tok (.ok { owner := some own }) (.ok statusCode body)).outcome
      = .rejected (.app (jsOr body.error_description body.error) true)) ∧
    ((c.create model doc (.ok statusCode body)).outcome
      = .rejected (.app (jsOr body.error_description body.error) false)) ∧
    ((c.read model id qopts (.ok statusCode body)).outcome
      = .rejected (.app (jsOr body.error_description body.error) false)) ∧
    ((c.update model id doc (.ok statusCode body)).outcome
      = .rejected (.app (jsOr body.error_description body.error) false)) ∧
    ((c.del model id (.ok statusCode body)).outcome
      = .rejected (.app (jsOr body.error_description body.error) false)) ∧
    ((c.search model qopts (.ok statusCode body)).outcome
      = .rejected (.app (jsOr body.error_description body.error) false)) ∧
    ((c.count model qopts (.ok statusCode body)).outcome
      = .rejected (.app (jsOr body.error_description body.error) false)) := by
  refine ⟨?_, ?_, ?_, ?_, ?_, ?_, ?_, ?_⟩ <;>
    simp [Client.login, Client.logout, Client.create, Client.read, Client.update,
      Client.del, Client.search, Client.count, crudHandle, decodeOwner, h]

/-- Witness for the amended C1 at a concrete 401 response. -/
theorem C1_witness :
    (400 ≤ 401) ∧
    ((sampleClient.create "members" [] (.ok 401 { error := some "unauthorized" })).outcome
      = .rejected (.app (some "unauthorized") false)) := by
  have hthm := C1_message_truthy sampleClient 401 { error := some "unauthorized" }
    {} {} none { name := some "o" } "members" "1" [] none (by decide)
  exact ⟨by decide, hthm.2.2.1⟩

/-- C3: a login whose transport succeeds with status < 400 resolves with
the response body, stores body.access_token as the instance token, and
each bearer-authenticated verb called on the updated instance attaches
that token as the bearer credential. -/
theorem C3_login_stores_token (c : Client) (creds : Creds) (opts : LoginOptions)
    (statusCode : Nat) (body : Body) (h : statusCode < 400) :
    ((c.login creds opts (.ok statusCode body)).outcome = .resolved body) ∧
    ((c.login creds opts (.ok statusCode body)).client.token = body.access_token) ∧
    (∀ model doc r,
      ((c.login creds opts (.ok statusCode body)).client.create model doc r).request.auth
        = .bearer body.access_token) ∧
    (∀ model id qopts r,
      ((c.login creds opts (.ok statusCode body)).client.read model id qopts r).request.auth
        = .bearer body.access_token) ∧
    (∀ model id doc r,
      ((c.login creds opts (.ok statusCode body)).client.update model id doc r).request.auth
        = .bearer body.access_token) ∧
    (∀ model id r,
      ((c.login creds opts (.ok statusCode body)).client.del model id r).request.auth
        = .bearer body.access_token) ∧
    (∀ model qopts r,
      ((c.login creds opts (.ok statusCode body)).client.search model qopts r).request.auth
        = .bearer body.access_token) ∧
    (∀ model qopts r,
      ((c.login creds opts (.ok statusCode body)).client.count model qopts r).request.auth
        = .bearer body.access_token) := by
  have h4 : ¬ 400 ≤ statusCode := by omega
  refine ⟨?_, ?_, ?_, ?_, ?_, ?_, ?_, ?_⟩ <;>
    simp [Client.login, h4, Client.create, Client.read, Client.update,
      Client.del, Client.search, Client.count]

/-- Witness for C3 at a concrete successful login. -/
theorem C3_witness :
    (200 < 400) ∧
    ((sampleClient.login {} {} (.ok 200 { access_token := some "at" })).outcome
      = .resolved { access_token := some "at" }) ∧
    ((sampleClient.login {} {} (.ok 200 { access_token := some "at" })).client.token
      = some "at") ∧
    (((sampleClient.login {} {} (.ok 200 { access_token := some "at" })).client.create
        "members" [] (.ok 200 {})).request.auth = .bearer (some "at")) := by
  have hthm := C3_login_stores_token sampleClient {} {} 200
    { access_token := some "at" } (by decide)
  exact ⟨by decide, hthm.1, hthm.2.1, hthm.2.2.1 "members" [] (.ok 200 {})⟩

/-- C4: bearer run on the heap returns a reference distinct from the
receiver's; the new object shares url, version, client_id and
client_secret with the receiver; and assigning a token through either
reference leaves the object behind the other reference untouched. -/
theorem C4_bearer_distinct (h : Heap) (i : Nat) (c : Client) (tok : Option String)
    (hi : h[i]? = some c) (hv : c.version ≠ "") :
    ((h.bearerOp i tok).2 ≠ i) ∧
    ((h.bearerOp i tok).1[(h.bearerOp i tok).2]? = some (c.bearer tok)) ∧
    ((c.bearer tok).url = c.url) ∧
    ((c.bearer tok).version = c.version) ∧
    ((c.bearer tok).client_id = c.client_id) ∧
    ((c.bearer tok).client_secret = c.client_secret) ∧
    (∀ t, ((h.bearerOp i tok).1.setToken i t)[(h.bearerOp i tok).2]?
      = some (c.bearer tok)) ∧
    (∀ t, ((h.bearerOp i tok).1.setToken (h.bearerOp i tok).2 t)[i]? = some c) := by
  have hlt : i < h.length := (List.getElem?_eq_some.mp hi).1
  have hb : h.bearerOp i tok = (h ++ [c.bearer tok], h.length) := by
    simp [Heap.bearerOp, hi, Heap.alloc]
  have hfields : (c.bearer tok).url = c.url ∧ (c.bearer tok).version = c.version ∧
      (c.bearer tok).client_id = c.client_id ∧
      (c.bearer tok).client_secret = c.client_secret := by
    obtain ⟨url, version, cid, csec, t0⟩ := c
    have hv2 : version ≠ "" := hv
    simp [Client.bearer, Client.ofOptions, Client.asOptions, jsOrS, hv2]
  have happ : (h ++ [c.bearer tok])[i]? = some c := by
    rw [List.getElem?_append_left hlt]; exact hi
  have hlen : (h ++ [c.bearer tok])[h.length]? = some (c.bearer tok) :=
    List.getElem?_concat_length _ _
  rw [hb]
  refine ⟨by omega, hlen, hfields.1, hfields.2.1, hfields.2.2.1, hfields.2.2.2, ?_, ?_⟩
  · intro t
    have hset : (h ++ [c.bearer tok]).setToken i t
        = (h ++ [c.bearer tok]).set i { c with token := t } := by
      simp [Heap.setToken, happ]
    rw [hset, List.getElem?_set_ne (by omega), hlen]
  · intro t
    have hset : (h ++ [c.bearer tok]).setToken h.length t
        = (h ++ [c.bearer tok]).set h.length { c.bearer tok with token := t } := by
      simp [Heap.setToken, hlen]
    rw [hset, List.getElem?_set_ne (by omega), happ]

/-- Witness for C4 on a one-object heap. -/
theorem C4_witness :
    (([sampleClient] : Heap)[0]? = some sampleClient) ∧
    (sampleClient.version ≠ "") ∧
    ((Heap.bearerOp [sampleClient] 0 (some "x")).2 ≠ 0) ∧
    (((Heap.bearerOp [sampleClient] 0 (some "x")).1.setToken 0 (some "z"))[
        (Heap.bearerOp [sampleClient] 0 (some "x")).2]?
      = some (sampleClient.bearer (some "x"))) := by
  have hthm := C4_bearer_distinct [sampleClient] 0 sampleClient (some "x")
    (by decide) (by decide)
  exact ⟨by decide, by decide, hthm.1, hthm.2.2.2.2.2.2.1 (some "z")⟩

/-- C8: every operation leaves url, version, client_id and client_secret of
the receiver unchanged; the token is either unchanged or was replaced by a
login whose response had status < 400, in which case it becomes the
body's access_token. -/
theorem C8_config_immutable (c : Client) (op : Op) :
    ((c.step op).url = c.url) ∧
    ((c.step op).version = c.version) ∧
    ((c.step op).client_id = c.client_id) ∧
    ((c.step op).client_secret = c.client_secret) ∧
    (((c.step op).token = c.token) ∨
      ∃ creds options statusCode body,
        op = Op.login creds options (.ok statusCode body) ∧ statusCode < 400 ∧
        (c.step op).token = body.access_token) := by
  cases op with
  | login creds options r =>
    cases r with
    | err e => exact ⟨rfl, rfl, rfl, rfl, Or.inl rfl⟩
    | ok statusCode body =>
      by_cases h4 : 400 ≤ statusCode
      · refine ⟨?_, ?_, ?_, ?_, Or.inl ?_⟩ <;> simp [Client.step, Client.login, h4]
      · refine ⟨?_, ?_, ?_, ?_,
          Or.inr ⟨creds, options, statusCode, body, rfl, by omega, ?_⟩⟩ <;>
          simp [Client.step, Client.login, h4]
  | logout tok d r => exact ⟨rfl, rfl, rfl, rfl, Or.inl rfl⟩
  | create model doc r => exact ⟨rfl, rfl, rfl, rfl, Or.inl rfl⟩
  | read model id options r => exact ⟨rfl, rfl, rfl, rfl, Or.inl rfl⟩
  | update model id doc r => exact ⟨rfl, rfl, rfl, rfl, Or.inl rfl⟩
  | del model id r => exact ⟨rfl, rfl, rfl, rfl, Or.inl rfl⟩
  | search model options r => exact ⟨rfl, rfl, rfl, rfl, Or.inl rfl⟩
  | count model options r => exact ⟨rfl, rfl, rfl, rfl, Or.inl rfl⟩
  | bearer tok => exact ⟨rfl, rfl, rfl, rfl, Or.inl rfl⟩

/-- C10: login fills a missing client_id/client_secret of the caller's
creds object from the instance configuration and a missing grant_type of
the caller's options object with the computed default; the updated
argument objects are what the caller observes after the call, on every
path of the call. -/
theorem C10_login_mutates_arguments (c : Client) (creds : Creds)
    (opts : LoginOptions) (r : HttpResult)
    (h1 : creds.client_id = none) (h2 : creds.client_secret = none)
    (h3 : opts.grant_type = none) :
    ((c.login creds opts r).creds.client_id = c.client_id) ∧
    ((c.login creds opts r).creds.client_secret = c.client_secret) ∧
    ((c.login creds opts r).creds.username = creds.username) ∧
    ((c.login creds opts r).creds.password = creds.password) ∧
    ((c.login creds opts r).options.grant_type
      = some (if truthy creds.username && truthy creds.password
              then "password" else "client_credentials")) := by
  rw [login_creds, login_options]
  refine ⟨?_, ?_, rfl, rfl, normalize_grant_type c creds opts h3⟩
  · obtain ⟨cid, csec, u, p⟩ := creds
    have hc : cid = none := h1
    subst hc
    rfl
  · obtain ⟨cid, csec, u, p⟩ := creds
    have hc : csec = none := h2
    subst hc
    rfl

/-- Witness for C10 with all three fields missing. -/
theorem C10_witness :
    (({ username := some "u", password := some "p" } : Creds).client_id = none) ∧
    (({ username := some "u", password := some "p" } : Creds).client_secret = none) ∧
    (({} : LoginOptions).grant_type = none) ∧
    ((sampleClient.login { username := some "u", password := some "p" } {}
        (.err "boom")).creds.client_id = some "cid") ∧
    ((sampleClient.login { username := some "u", password := some "p" } {}
        (.err "boom")).creds.client_secret = some "sec") ∧
    ((sampleClient.login { username := some "u", password := some "p" } {}
        (.err "boom")).options.grant_type = some "password") := by
  have hthm := C10_login_mutates_arguments sampleClient
    { username := some "u", password := some "p" } {} (.err "boom") rfl rfl rfl
  exact ⟨rfl, rfl, rfl, hthm.1, hthm.2.1, hthm.2.2.2.2⟩

end NodeMojo
